import Mathlib

/-
Verification of the TAK-Wrapper build orchestration script (build.py).

The script is sequential shell-out orchestration over the filesystem.  We embed
it shallowly:

* a filesystem state `FS` is a finite list of existing paths, each path a list
  of components relative to the project root (`["dist", "TAK Manager.app"]`
  stands for `dist/TAK Manager.app`);
* external subprocesses (npm, pyinstaller, tar) are opaque: an `Env` record
  supplies their exit codes and the set of paths a successful run creates;
* every observable action of the script (subprocess spawn, `shutil.make_archive`
  call, directory removal, file unlink, file write, chmod, existence check,
  log line) is recorded in an event trace;
* `sys.exit(n)` raises `SystemExit`, which the `except Exception` handler in
  `build_app` does NOT catch, while `CalledProcessError` and `OSError` are
  ordinary exceptions that it does catch; the `Outcome` type keeps the two
  apart (`exited` vs `raised`);
* `pathlib`'s recursive glob used by `clean_build` is lazy: interleaving
  `shutil.rmtree` with the generator means a `__pycache__` directory lying
  inside an already-removed `__pycache__` tree is never yielded.  We model the
  yielded set as the existing `__pycache__` directories that are minimal, i.e.
  not below another `__pycache__` component.
-/

namespace TakBuild

/-- A path relative to the project root, as a list of components. -/
abbrev FsPath := List String

/-- A filesystem state: the list of paths that currently exist. -/
abbrev FS := List FsPath

/-- Kernel-reducible rendition of `String.endsWith` (suffix test on the
character lists), used to model the `*.spec` glob pattern. -/
def strEndsWith (s suffix : String) : Bool := suffix.data.isSuffixOf s.data

/-- Observable actions performed by the script, in program order. -/
inductive Event where
  | checkExists (p : FsPath)
  | mkdir (p : FsPath)
  | removeTree (p : FsPath)
  | unlink (p : FsPath)
  | spawn (cmd : List String)
  | makeArchive (baseName : String) (fmt : String) (rootDir : String) (baseDir : Option String)
  | writeFile (p : FsPath)
  | chmod (p : FsPath) (mode : Nat)
  | logInfo (msg : String)
  | logWarning (msg : String)
  | logError (msg : String)
  deriving DecidableEq, Repr

/-- How a piece of the pipeline finished: normally, via `sys.exit(code)`
(`SystemExit`, not caught by `except Exception`), or by raising an ordinary
exception (caught by the `except Exception` block of `build_app`). -/
inductive Outcome where
  | ok
  | exited (code : Nat)
  | raised
  deriving DecidableEq, Repr

/-- Create a path (no-op if it already exists). -/
def fsInsert (p : FsPath) (fs : FS) : FS := if p ∈ fs then fs else p :: fs

/-- Add a batch of externally created paths to the filesystem. -/
def unionPaths (fs : FS) (l : List FsPath) : FS :=
  fs ++ l.filter (fun p => decide (p ∉ fs))

/-- shutil.rmtree: remove the path `q` together with everything below it. -/
def rmtree (q : FsPath) (fs : FS) : FS := fs.filter (fun p => !(q.isPrefixOf p))

/-- setup_logging (build.py:10-26): on darwin the log directory lives under
the user's home, outside the project tree; elsewhere it is the relative
directory `logs`, created with a timestamped log file inside. -/
def setup_logging (platform stamp : String) (fs : FS) : FS :=
  if platform = "darwin" then fs
  else fsInsert ["logs", "build-" ++ stamp ++ ".log"] (fsInsert ["logs"] fs)

/-- One iteration of the first clean_build loop (build.py:54-58):
`if os.path.exists(dir_name): shutil.rmtree(dir_name)`. -/
def removeIfExists (d : String) (st : FS × List Event) : FS × List Event :=
  if [d] ∈ st.1 then
    (rmtree [d] st.1,
     st.2 ++ [Event.checkExists [d], Event.logInfo ("Cleaning " ++ d ++ "..."),
              Event.removeTree [d]])
  else (st.1, st.2 ++ [Event.checkExists [d]])

/-- First stage of clean_build: remove `build`, `dist`, `__pycache__`
(build.py:54-58), in the order of `dirs_to_clean`. -/
def cleanStep1 (fs : FS) : FS × List Event :=
  removeIfExists "__pycache__" (removeIfExists "dist" (removeIfExists "build" (fs, [])))

/-- A top-level path matched by `Path('.').glob('*.spec')`. -/
def isTopSpec (p : FsPath) : Bool :=
  match p with
  | [s] => strEndsWith s ".spec"
  | _ => false

/-- A top-level `*.spec` path other than the canonical `tak-manager.spec`;
exactly these are unlinked by the loop at build.py:61-64. -/
def isStraySpec (p : FsPath) : Bool :=
  match p with
  | [s] => strEndsWith s ".spec" && !(s == "tak-manager.spec")
  | _ => false

/-- Render a path for log messages. -/
def pathStr (p : FsPath) : String := String.intercalate "/" p

/-- Second stage of clean_build (build.py:61-64): unlink every top-level
`*.spec` file whose name is not `tak-manager.spec`. -/
def cleanStep2 (fs : FS) : FS × List Event :=
  (fs.filter (fun p => !(isStraySpec p)),
   (fs.filter isStraySpec).flatMap
     (fun p => [Event.logInfo ("Removing " ++ pathStr p ++ "..."), Event.unlink p]))

/-- A path whose final component is `__pycache__`. -/
def isPycDir (p : FsPath) : Bool := p.getLast? == some "__pycache__"

/-- A `__pycache__` directory not lying below another `__pycache__`
component: exactly the directories the lazy glob `**/__pycache__` yields when
each yielded directory is removed before the next is requested. -/
def isPycRoot (p : FsPath) : Bool := isPycDir p && !(p.dropLast.contains "__pycache__")

/-- Third stage of clean_build (build.py:67-69): rmtree every yielded
`__pycache__` directory. -/
def cleanStep3 (fs : FS) : FS × List Event :=
  (fs.filter (fun p => !((fs.filter isPycRoot).any (fun r => r.isPrefixOf p))),
   (fs.filter isPycRoot).flatMap
     (fun r => [Event.logInfo ("Cleaning " ++ pathStr r ++ "..."), Event.removeTree r]))

/-- clean_build (build.py:52-69): the three stages in program order. -/
def clean_build (fs : FS) : FS × List Event :=
  let s1 := cleanStep1 fs
  let s2 := cleanStep2 s1.1
  let s3 := cleanStep3 s2.1
  (s3.1, s1.2 ++ s2.2 ++ s3.2)

/-- The run environment: exit codes of the external tools and the paths each
successful tool run creates, plus the log-file timestamp. -/
structure Env where
  npmInstallExit : Nat
  npmBuildExit : Nat
  pyinstallerExit : Nat
  tarExit : Nat
  npmInstallCreates : List FsPath
  npmBuildCreates : List FsPath
  pyinstallerCreates : List FsPath
  logStamp : String

/-- build_frontend (build.py:28-50): require `web/` to exist (else log an
error and `sys.exit(1)`), remove a stale `web/dist`, then run `npm install`
and `npm run build` with `check=True`; a non-zero exit raises
`CalledProcessError`, which the local handler turns into `sys.exit(1)`. -/
def build_frontend (platform : String) (env : Env) (fs : FS) : FS × List Event × Outcome :=
  if ["web"] ∈ fs then
    let npmCmd := if platform = "win32" then "npm.cmd" else "npm"
    let fs1 := if ["web", "dist"] ∈ fs then rmtree ["web", "dist"] fs else fs
    let trPre : List Event :=
      [Event.checkExists ["web"], Event.logInfo "Building frontend...",
       Event.checkExists ["web", "dist"]] ++
      (if ["web", "dist"] ∈ fs then
        [Event.logInfo "Cleaning previous frontend build...", Event.removeTree ["web", "dist"]]
       else []) ++
      [Event.spawn [npmCmd, "install"]]
    if env.npmInstallExit = 0 then
      let fs2 := unionPaths fs1 env.npmInstallCreates
      let trB := trPre ++ [Event.spawn [npmCmd, "run", "build"]]
      if env.npmBuildExit = 0 then
        (unionPaths fs2 env.npmBuildCreates, trB, Outcome.ok)
      else
        (fs2, trB ++ [Event.logError "Error building frontend"], Outcome.exited 1)
    else
      (fs1, trPre ++ [Event.logError "Error building frontend"], Outcome.exited 1)
  else
    (fs, [Event.checkExists ["web"], Event.logError "Web directory not found"],
     Outcome.exited 1)

/-- required_files (build.py:77-83): the platform-to-icon-filename map. -/
def required_files (platform : String) : Option String :=
  if platform = "darwin" then some "icon.icns"
  else if platform = "win32" then some "icon.ico"
  else if platform = "linux" then some "icon.png"
  else none

/-- ensure_resources (build.py:71-87): create `resources/` if absent, look up
the single platform icon filename, check its existence, and on absence only
log a warning.  There is no error path. -/
def ensure_resources (platform : String) (fs : FS) : FS × List Event :=
  let mkEv : List Event := if ["resources"] ∈ fs then [] else [Event.mkdir ["resources"]]
  let fs1 := fsInsert ["resources"] fs
  match required_files platform with
  | some f =>
      if ["resources", f] ∈ fs1 then
        (fs1, mkEv ++ [Event.checkExists ["resources", f]])
      else
        (fs1, mkEv ++ [Event.checkExists ["resources", f],
                       Event.logWarning (f ++ " not found in resources directory")])
  | none => (fs1, mkEv)

/-- The path of the macOS debug launch helper. -/
def debugScriptPath : FsPath := ["dist", "debug_launch.command"]

/-- create_debug_script (build.py:89-107): on darwin write
`dist/debug_launch.command` and chmod it to 0o755; opening the file for
writing raises `FileNotFoundError` when `dist/` does not exist.  No-op on
other platforms. -/
def create_debug_script (platform : String) (fs : FS) : FS × List Event × Outcome :=
  if platform = "darwin" then
    if ["dist"] ∈ fs then
      (fsInsert debugScriptPath fs,
       [Event.writeFile debugScriptPath, Event.chmod debugScriptPath 493,
        Event.logInfo "Created debug launch script"],
       Outcome.ok)
    else (fs, [], Outcome.raised)
  else (fs, [], Outcome.ok)

/-- The native packager invocation (build.py:127). -/
def pyinstallerCmd : List String := ["pyinstaller", "tak-manager.spec", "--clean"]

/-- The Linux archive invocation (build.py:158). -/
def tarCmd : List String :=
  ["tar", "czf", "dist/TAK-Manager-Linux.tar.gz", "-C", "dist", "tak-manager"]

/-- The archive branch of build_app (build.py:133-158): on darwin zip the
`TAK Manager.app` bundle from root `dist`; on win32 zip the contents of
`dist/TAK Manager` (no base dir); otherwise invoke `tar` with no exit-code
check, the archive existing afterwards only if tar itself succeeded.  Each
branch runs only when its expected output path exists. -/
def archiveStage (platform : String) (env : Env) (fs : FS) : FS × List Event :=
  if platform = "darwin" then
    if ["dist", "TAK Manager.app"] ∈ fs then
      (fsInsert ["dist", "TAK-Manager-macOS.zip"] fs,
       [Event.checkExists ["dist", "TAK Manager.app"],
        Event.logInfo "Creating macOS ZIP archive...",
        Event.makeArchive "dist/TAK-Manager-macOS" "zip" "dist" (some "TAK Manager.app")])
    else (fs, [Event.checkExists ["dist", "TAK Manager.app"]])
  else if platform = "win32" then
    if ["dist", "TAK Manager"] ∈ fs then
      (fsInsert ["dist", "TAK-Manager-Windows.zip"] fs,
       [Event.checkExists ["dist", "TAK Manager"],
        Event.logInfo "Creating Windows distribution archive...",
        Event.makeArchive "dist/TAK-Manager-Windows" "zip" "dist/TAK Manager" none])
    else (fs, [Event.checkExists ["dist", "TAK Manager"]])
  else
    if ["dist", "tak-manager"] ∈ fs then
      ((if env.tarExit = 0 then fsInsert ["dist", "TAK-Manager-Linux.tar.gz"] fs else fs),
       [Event.checkExists ["dist", "tak-manager"],
        Event.logInfo "Creating Linux distribution archive...",
        Event.spawn tarCmd])
    else (fs, [Event.checkExists ["dist", "tak-manager"]])

/-- The final state of a whole run of the script: resulting filesystem, event
trace, and process exit code. -/
structure RunResult where
  fs : FS
  trace : List Event
  exitCode : Nat
  deriving DecidableEq, Repr

/-- build_app from the debug-script step onward (build.py:130-162): a raised
exception is caught by the `except Exception` handler (log, exit 1); a
`SystemExit` passes through; otherwise run the archive branch and finish
with exit code 0. -/
def finishFromDebug (platform : String) (env : Env) (preTr : List Event)
    (dsres : FS × List Event × Outcome) : RunResult :=
  match dsres.2.2 with
  | Outcome.raised =>
      ⟨dsres.1, preTr ++ dsres.2.1 ++ [Event.logError "Error during build"], 1⟩
  | Outcome.exited code => ⟨dsres.1, preTr ++ dsres.2.1, code⟩
  | Outcome.ok =>
      let ar := archiveStage platform env dsres.1
      ⟨ar.1,
       preTr ++ dsres.2.1 ++ ar.2 ++
         [Event.logInfo "Build completed successfully!",
          Event.logInfo "Output can be found in the dist directory"],
       0⟩

/-- build_app from the pyinstaller step onward (build.py:125-130): spawn
pyinstaller with `check=True`; on non-zero exit the `CalledProcessError` is
caught by the outer handler (log, exit 1); on success the packager's outputs
appear on disk and the debug-script step runs. -/
def finishFromResources (platform : String) (env : Env) (preTr : List Event)
    (erres : FS × List Event) : RunResult :=
  let trPy := preTr ++ erres.2 ++
    [Event.logInfo "Building application with PyInstaller...", Event.spawn pyinstallerCmd]
  if env.pyinstallerExit = 0 then
    finishFromDebug platform env trPy
      (create_debug_script platform (unionPaths erres.1 env.pyinstallerCreates))
  else ⟨erres.1, trPy ++ [Event.logError "Error during build"], 1⟩

/-- build_app from the frontend step onward (build.py:120-123): a
`SystemExit` from build_frontend passes through `except Exception`
uncaught and becomes the process exit code; otherwise continue with
ensure_resources. -/
def finishFromFrontend (platform : String) (env : Env) (preTr : List Event)
    (bfres : FS × List Event × Outcome) : RunResult :=
  match bfres.2.2 with
  | Outcome.exited code => ⟨bfres.1, preTr ++ bfres.2.1, code⟩
  | Outcome.raised =>
      ⟨bfres.1, preTr ++ bfres.2.1 ++ [Event.logError "Error during build"], 1⟩
  | Outcome.ok =>
      finishFromResources platform env (preTr ++ bfres.2.1)
        (ensure_resources platform bfres.1)

/-- build_app (build.py:109-166): set up logging, clean, build the frontend,
check resources, package, emit the debug script, archive, and report the
process exit code. -/
def build_app (platform : String) (env : Env) (fs0 : FS) : RunResult :=
  let cl := clean_build (setup_logging platform env.logStamp fs0)
  finishFromFrontend platform env
    (Event.logInfo "Build log will be written to the log file" :: cl.2)
    (build_frontend platform env cl.1)

/-- Events that delete something from the filesystem. -/
def isDeletionEvent : Event → Bool
  | Event.removeTree _ => true
  | Event.unlink _ => true
  | _ => false

/-- Events that are neither a subprocess spawn nor an archive-library call. -/
def isBenignEvent : Event → Bool
  | Event.spawn _ => false
  | Event.makeArchive _ _ _ _ => false
  | _ => true

/-- A spawn of the frontend package manager. -/
def isNpmSpawn : Event → Bool
  | Event.spawn (c :: _) => c == "npm" || c == "npm.cmd"
  | _ => false

/-- An attempt to create the distribution archive: a `make_archive` call or a
spawn of the tar tool. -/
def isArchiveAttempt : Event → Bool
  | Event.makeArchive _ _ _ _ => true
  | Event.spawn (c :: _) => c == "tar"
  | _ => false

/-- A check-existence event. -/
def isCheckEvent : Event → Bool
  | Event.checkExists _ => true
  | _ => false

/-- A warning log line. -/
def isWarnEvent : Event → Bool
  | Event.logWarning _ => true
  | _ => false

/-- The icon filename ensure_resources looks for on the given platform. -/
def iconFileName (platform : String) : String := (required_files platform).getD ""

/-- The platform-expected packager output path whose existence gates the
archive branch of build_app (build.py:134-158). -/
def expectedAppPath (platform : String) : FsPath :=
  if platform = "darwin" then ["dist", "TAK Manager.app"]
  else if platform = "win32" then ["dist", "TAK Manager"]
  else ["dist", "tak-manager"]

/-- An environment in which every external tool succeeds and creates
nothing. -/
def envAllOk : Env :=
  { npmInstallExit := 0, npmBuildExit := 0, pyinstallerExit := 0, tarExit := 0,
    npmInstallCreates := [], npmBuildCreates := [], pyinstallerCreates := [],
    logStamp := "20240101-000000" }

/-- An environment in which `npm install` fails. -/
def envNpmFail : Env :=
  { npmInstallExit := 1, npmBuildExit := 0, pyinstallerExit := 0, tarExit := 0,
    npmInstallCreates := [], npmBuildCreates := [], pyinstallerCreates := [],
    logStamp := "20240101-000000" }

/-- An environment in which every external tool succeeds and the packager
creates the darwin bundle. -/
def envDarwinOk : Env :=
  { npmInstallExit := 0, npmBuildExit := 0, pyinstallerExit := 0, tarExit := 0,
    npmInstallCreates := [], npmBuildCreates := [],
    pyinstallerCreates := [["dist"], ["dist", "TAK Manager.app"]],
    logStamp := "20240101-000000" }

/-- An environment in which every external tool succeeds and the packager
creates the linux output directory. -/
def envLinuxOk : Env :=
  { npmInstallExit := 0, npmBuildExit := 0, pyinstallerExit := 0, tarExit := 0,
    npmInstallCreates := [], npmBuildCreates := [],
    pyinstallerCreates := [["dist"], ["dist", "tak-manager"]],
    logStamp := "20240101-000000" }

/-- An environment in which npm and pyinstaller succeed, the packager
creates the linux output directory, and tar fails. -/
def envLinuxTarFail : Env :=
  { npmInstallExit := 0, npmBuildExit := 0, pyinstallerExit := 0, tarExit := 2,
    npmInstallCreates := [], npmBuildCreates := [],
    pyinstallerCreates := [["dist"], ["dist", "tak-manager"]],
    logStamp := "20240101-000000" }

/-- An environment in which every tool succeeds and the packager creates
only `dist/` with no platform output inside it. -/
def envNoOutput : Env :=
  { npmInstallExit := 0, npmBuildExit := 0, pyinstallerExit := 0, tarExit := 0,
    npmInstallCreates := [], npmBuildCreates := [],
    pyinstallerCreates := [["dist"]],
    logStamp := "20240101-000000" }

/-- An environment in which every tool succeeds and the packager creates
both desktop-platform outputs. -/
def envDesktopOk : Env :=
  { npmInstallExit := 0, npmBuildExit := 0, pyinstallerExit := 0, tarExit := 0,
    npmInstallCreates := [], npmBuildCreates := [],
    pyinstallerCreates := [["dist"], ["dist", "TAK Manager"], ["dist", "TAK Manager.app"]],
    logStamp := "20240101-000000" }

/-! ### Basic lemmas about the filesystem model -/

lemma mem_fsInsert {q p : FsPath} {fs : FS} : q ∈ fsInsert p fs ↔ q = p ∨ q ∈ fs := by
  unfold fsInsert
  split
  · constructor
    · exact fun h => Or.inr h
    · rintro (rfl | h)
      · assumption
      · exact h
  · simp [List.mem_cons]

lemma mem_fsInsert_of_mem {q p : FsPath} {fs : FS} (h : q ∈ fs) : q ∈ fsInsert p fs :=
  mem_fsInsert.mpr (Or.inr h)

lemma mem_unionPaths {q : FsPath} {fs : FS} {l : List FsPath} :
    q ∈ unionPaths fs l ↔ q ∈ fs ∨ q ∈ l := by
  unfold unionPaths
  simp only [List.mem_append, List.mem_filter, decide_eq_true_eq]
  constructor
  · rintro (h | ⟨h, _⟩)
    · exact Or.inl h
    · exact Or.inr h
  · rintro (h | h)
    · exact Or.inl h
    · by_cases hf : q ∈ fs
      · exact Or.inl hf
      · exact Or.inr ⟨h, hf⟩

lemma mem_rmtree {q r : FsPath} {fs : FS} : q ∈ rmtree r fs ↔ q ∈ fs ∧ ¬ r <+: q := by
  unfold rmtree
  simp only [List.mem_filter, Bool.not_eq_true']
  constructor
  · rintro ⟨h1, h2⟩
    refine ⟨h1, fun hpre => ?_⟩
    rw [← List.isPrefixOf_iff_prefix] at hpre
    simp [hpre] at h2
  · rintro ⟨h1, h2⟩
    refine ⟨h1, ?_⟩
    rw [Bool.eq_false_iff]
    intro h
    exact h2 (List.isPrefixOf_iff_prefix.mp h)

lemma singleton_prefix_iff {q : FsPath} {a : String} : [a] <+: q ↔ q.head? = some a := by
  cases q with
  | nil => simp [List.IsPrefix]
  | cons b t => simp [List.cons_prefix_cons, eq_comm]

lemma getLast?_mem {α : Type} {l : List α} {x : α} (h : l.getLast? = some x) : x ∈ l := by
  induction l with
  | nil => simp at h
  | cons a t ih =>
    cases t with
    | nil => simp_all
    | cons b t2 =>
      rw [List.getLast?_cons_cons] at h
      exact List.mem_cons_of_mem _ (ih h)

lemma mem_setup_logging_iff {q : FsPath} {p s : String} {fs : FS}
    (hq : q.head? ≠ some "logs") : q ∈ setup_logging p s fs ↔ q ∈ fs := by
  unfold setup_logging
  split
  · rfl
  · rw [mem_fsInsert, mem_fsInsert]
    constructor
    · rintro (rfl | rfl | h)
      · simp at hq
      · simp at hq
      · exact h
    · exact fun h => Or.inr (Or.inr h)

lemma mem_setup_logging_of_mem {q : FsPath} {p s : String} {fs : FS} (h : q ∈ fs) :
    q ∈ setup_logging p s fs := by
  unfold setup_logging
  split
  · exact h
  · exact mem_fsInsert_of_mem (mem_fsInsert_of_mem h)

/-! ### Lemmas about clean_build -/

lemma removeIfExists_fst_subset (d : String) (st : FS × List Event) :
    (removeIfExists d st).1 ⊆ st.1 := by
  unfold removeIfExists
  split
  · exact List.filter_subset' _
  · exact fun q h => h

lemma cleanStep1_fst_subset (fs : FS) : (cleanStep1 fs).1 ⊆ fs := by
  unfold cleanStep1
  intro q hq
  exact removeIfExists_fst_subset _ _
    (removeIfExists_fst_subset _ _ (removeIfExists_fst_subset _ _ hq))

lemma cleanStep2_fst_subset (fs : FS) : (cleanStep2 fs).1 ⊆ fs := by
  unfold cleanStep2
  exact List.filter_subset' _

lemma cleanStep3_fst_subset (fs : FS) : (cleanStep3 fs).1 ⊆ fs := by
  unfold cleanStep3
  exact List.filter_subset' _

lemma clean_build_fst_subset (fs : FS) : (clean_build fs).1 ⊆ fs := by
  unfold clean_build
  intro q hq
  exact cleanStep1_fst_subset _
    (cleanStep2_fst_subset _ (cleanStep3_fst_subset _ hq))

lemma mem_removeIfExists {q : FsPath} {d : String} {st : FS × List Event}
    (h : q ∈ st.1) (hq : ¬ [d] <+: q) : q ∈ (removeIfExists d st).1 := by
  unfold removeIfExists
  split
  · exact mem_rmtree.mpr ⟨h, hq⟩
  · exact h

lemma mem_cleanStep1 {q : FsPath} {fs : FS} (h : q ∈ fs)
    (h1 : ¬ ["build"] <+: q) (h2 : ¬ ["dist"] <+: q) (h3 : ¬ ["__pycache__"] <+: q) :
    q ∈ (cleanStep1 fs).1 := by
  unfold cleanStep1
  exact mem_removeIfExists (mem_removeIfExists (mem_removeIfExists h h1) h2) h3

lemma mem_cleanStep2 {q : FsPath} {fs : FS} (h : q ∈ fs) (hs : isStraySpec q = false) :
    q ∈ (cleanStep2 fs).1 := by
  unfold cleanStep2
  simp [List.mem_filter, h, hs]

lemma mem_cleanStep3 {q : FsPath} {fs : FS} (h : q ∈ fs) (hc : "__pycache__" ∉ q) :
    q ∈ (cleanStep3 fs).1 := by
  unfold cleanStep3
  simp only [List.mem_filter, Bool.not_eq_true']
  refine ⟨h, ?_⟩
  rw [List.any_eq_false]
  intro r hr
  simp only [List.mem_filter] at hr
  obtain ⟨-, hroot⟩ := hr
  unfold isPycRoot isPycDir at hroot
  simp only [Bool.and_eq_true, beq_iff_eq] at hroot
  intro hpre
  rw [List.isPrefixOf_iff_prefix] at hpre
  exact hc (hpre.subset (getLast?_mem hroot.1))

lemma mem_clean_build {q : FsPath} {fs : FS} (h : q ∈ fs)
    (h1 : ¬ ["build"] <+: q) (h2 : ¬ ["dist"] <+: q)
    (hs : isStraySpec q = false) (hc : "__pycache__" ∉ q) :
    q ∈ (clean_build fs).1 := by
  unfold clean_build
  have h3 : ¬ ["__pycache__"] <+: q := by
    intro hpre
    exact hc (hpre.subset (by simp))
  exact mem_cleanStep3 (mem_cleanStep2 (mem_cleanStep1 h h1 h2 h3) hs) hc

lemma removeIfExists_eq_of_not_mem {d : String} {fs : FS} {tr : List Event}
    (h : [d] ∉ fs) :
    removeIfExists d (fs, tr) = (fs, tr ++ [Event.checkExists [d]]) := by
  unfold removeIfExists
  rw [if_neg h]

lemma not_mem_removeIfExists_self (d : String) (st : FS × List Event) :
    [d] ∉ (removeIfExists d st).1 := by
  unfold removeIfExists
  by_cases h : [d] ∈ st.1
  · rw [if_pos h]
    intro hmem
    exact (mem_rmtree.mp hmem).2 (List.prefix_refl _)
  · rw [if_neg h]
    exact h

lemma not_mem_cleanStep1_build (fs : FS) : ["build"] ∉ (cleanStep1 fs).1 := by
  unfold cleanStep1
  intro h
  exact not_mem_removeIfExists_self "build" (fs, [])
    (removeIfExists_fst_subset _ _ (removeIfExists_fst_subset _ _ h))

lemma not_mem_cleanStep1_dist (fs : FS) : ["dist"] ∉ (cleanStep1 fs).1 := by
  unfold cleanStep1
  intro h
  exact not_mem_removeIfExists_self "dist" _ (removeIfExists_fst_subset _ _ h)

lemma not_mem_cleanStep1_pycache (fs : FS) : ["__pycache__"] ∉ (cleanStep1 fs).1 := by
  unfold cleanStep1
  exact not_mem_removeIfExists_self "__pycache__" _

lemma clean_build_fst_eq (fs : FS) :
    (clean_build fs).1 = (cleanStep3 (cleanStep2 (cleanStep1 fs).1).1).1 := rfl

lemma not_mem_clean_build_build (fs : FS) : ["build"] ∉ (clean_build fs).1 := by
  rw [clean_build_fst_eq]
  intro h
  exact not_mem_cleanStep1_build fs (cleanStep2_fst_subset _ (cleanStep3_fst_subset _ h))

lemma not_mem_clean_build_dist (fs : FS) : ["dist"] ∉ (clean_build fs).1 := by
  rw [clean_build_fst_eq]
  intro h
  exact not_mem_cleanStep1_dist fs (cleanStep2_fst_subset _ (cleanStep3_fst_subset _ h))

lemma not_mem_clean_build_pycache (fs : FS) : ["__pycache__"] ∉ (clean_build fs).1 := by
  rw [clean_build_fst_eq]
  intro h
  exact not_mem_cleanStep1_pycache fs (cleanStep2_fst_subset _ (cleanStep3_fst_subset _ h))

lemma clean_build_no_stray (fs : FS) {q : FsPath} (h : q ∈ (clean_build fs).1) :
    isStraySpec q = false := by
  rw [clean_build_fst_eq] at h
  have h2 : q ∈ (cleanStep2 (cleanStep1 fs).1).1 := cleanStep3_fst_subset _ h
  unfold cleanStep2 at h2
  have := (List.mem_filter.mp h2).2
  simpa using this

lemma clean_build_no_pycroot (fs : FS) {q : FsPath} (h : q ∈ (clean_build fs).1) :
    isPycRoot q = false := by
  rw [clean_build_fst_eq] at h
  unfold cleanStep3 at h
  rw [List.mem_filter] at h
  obtain ⟨hmem, hfilt⟩ := h
  rw [Bool.not_eq_true', List.any_eq_false] at hfilt
  rw [Bool.eq_false_iff]
  intro hroot
  have hq : q ∈ (cleanStep2 (cleanStep1 fs).1).1.filter isPycRoot :=
    List.mem_filter.mpr ⟨hmem, hroot⟩
  have := hfilt q hq
  rw [List.isPrefixOf_iff_prefix] at this
  simp at this

lemma unlink_mem_clean_build_iff {fs : FS} {q : FsPath} :
    Event.unlink q ∈ (clean_build fs).2 ↔
      q ∈ (cleanStep1 fs).1 ∧ isStraySpec q = true := by
  have hn1 : Event.unlink q ∉ (cleanStep1 fs).2 := by
    unfold cleanStep1
    have step : ∀ (d : String) (st : FS × List Event),
        Event.unlink q ∉ st.2 → Event.unlink q ∉ (removeIfExists d st).2 := by
      intro d st hst
      unfold removeIfExists
      by_cases h : [d] ∈ st.1
      · rw [if_pos h]
        simp only [List.mem_append, List.mem_cons, List.mem_singleton]
        rintro (h' | h' | h' | h' | h') <;> simp_all
      · rw [if_neg h]
        simp only [List.mem_append, List.mem_singleton]
        rintro (h' | h') <;> simp_all
    exact step _ _ (step _ _ (step _ _ (by simp)))
  have hn3 : ∀ fs2 : FS, Event.unlink q ∉ (cleanStep3 fs2).2 := by
    intro fs2
    unfold cleanStep3
    intro h
    rw [List.mem_flatMap] at h
    obtain ⟨r, -, hr⟩ := h
    simp at hr
  unfold clean_build
  simp only [List.mem_append]
  constructor
  · rintro ((h | h) | h)
    · exact absurd h hn1
    · unfold cleanStep2 at h
      rw [List.mem_flatMap] at h
      obtain ⟨r, hrmem, hr⟩ := h
      simp only [List.mem_cons, List.mem_singleton] at hr
      rcases hr with hr | hr | hr
      · exact absurd hr (by simp)
      · obtain rfl : q = r := by simpa using hr
        exact ⟨(List.mem_filter.mp hrmem).1, (List.mem_filter.mp hrmem).2⟩
      · simp at hr
    · exact absurd h (hn3 _)
  · rintro ⟨hmem, hstray⟩
    refine Or.inl (Or.inr ?_)
    unfold cleanStep2
    rw [List.mem_flatMap]
    exact ⟨q, List.mem_filter.mpr ⟨hmem, hstray⟩, by simp⟩

lemma cleanStep1_eq_of_clean {fs1 : FS}
    (hb : ["build"] ∉ fs1) (hd : ["dist"] ∉ fs1) (hp : ["__pycache__"] ∉ fs1) :
    cleanStep1 fs1 =
      (fs1, [Event.checkExists ["build"], Event.checkExists ["dist"],
             Event.checkExists ["__pycache__"]]) := by
  unfold cleanStep1
  rw [removeIfExists_eq_of_not_mem hb]
  rw [removeIfExists_eq_of_not_mem hd]
  rw [removeIfExists_eq_of_not_mem hp]
  simp

lemma cleanStep2_eq_of_clean {fs1 : FS} (hs : ∀ q ∈ fs1, isStraySpec q = false) :
    cleanStep2 fs1 = (fs1, []) := by
  unfold cleanStep2
  have hall : fs1.filter (fun p => !(isStraySpec p)) = fs1 :=
    List.filter_eq_self.mpr (fun a ha => by rw [hs a ha]; rfl)
  have hnil : fs1.filter isStraySpec = [] :=
    List.filter_eq_nil_iff.mpr (fun a ha h => by rw [hs a ha] at h; exact absurd h (by simp))
  rw [hall, hnil]
  simp

lemma cleanStep3_eq_of_clean {fs1 : FS} (hr : ∀ q ∈ fs1, isPycRoot q = false) :
    cleanStep3 fs1 = (fs1, []) := by
  unfold cleanStep3
  have hnil : fs1.filter isPycRoot = [] :=
    List.filter_eq_nil_iff.mpr (fun a ha h => by rw [hr a ha] at h; exact absurd h (by simp))
  rw [hnil]
  simp only [List.any_nil, Bool.not_false, List.flatMap_nil]
  rw [List.filter_eq_self.mpr (fun a _ => rfl)]

lemma clean_build_eq_of_clean {fs1 : FS}
    (hb : ["build"] ∉ fs1) (hd : ["dist"] ∉ fs1) (hp : ["__pycache__"] ∉ fs1)
    (hs : ∀ q ∈ fs1, isStraySpec q = false) (hr : ∀ q ∈ fs1, isPycRoot q = false) :
    clean_build fs1 =
      (fs1, [Event.checkExists ["build"], Event.checkExists ["dist"],
             Event.checkExists ["__pycache__"]]) := by
  have h1 := cleanStep1_eq_of_clean hb hd hp
  have h1f : (cleanStep1 fs1).1 = fs1 := by rw [h1]
  have h1s : (cleanStep1 fs1).2 =
      [Event.checkExists ["build"], Event.checkExists ["dist"],
       Event.checkExists ["__pycache__"]] := by rw [h1]
  have h2 := cleanStep2_eq_of_clean hs
  have h2f : (cleanStep2 fs1).1 = fs1 := by rw [h2]
  have h2s : (cleanStep2 fs1).2 = [] := by rw [h2]
  have h3 := cleanStep3_eq_of_clean hr
  have h3f : (cleanStep3 fs1).1 = fs1 := by rw [h3]
  have h3s : (cleanStep3 fs1).2 = [] := by rw [h3]
  simp only [clean_build]
  rw [h1f, h1s, h2f, h2s, h3f, h3s]
  simp

/-- C4: clean_build is idempotent: running it a second time on the state the
first run produced leaves the state unchanged, performs no deletions (the
second run's trace consists of the three existence checks only, so in
particular it removes no directory and unlinks no file), and raises no error
(the model of clean_build is a total function and the second run's trace
contains no failure event). -/
theorem clean_build_idempotent (fs : FS) :
    clean_build (clean_build fs).1 =
      ((clean_build fs).1,
        [Event.checkExists ["build"], Event.checkExists ["dist"],
         Event.checkExists ["__pycache__"]]) ∧
    (clean_build (clean_build fs).1).2.filter isDeletionEvent = [] := by
  have main := clean_build_eq_of_clean
    (not_mem_clean_build_build fs) (not_mem_clean_build_dist fs)
    (not_mem_clean_build_pycache fs)
    (fun q hq => clean_build_no_stray fs hq)
    (fun q hq => clean_build_no_pycroot fs hq)
  refine ⟨main, ?_⟩
  rw [main]
  rfl

/-- C7: clean_build never deletes the canonical packaging-spec file
`tak-manager.spec`: a top-level `*.spec` file present in the filesystem is
unlinked by clean_build exactly when its name differs from
`tak-manager.spec`, and a pre-existing `tak-manager.spec` is still present
after clean_build. -/
theorem clean_build_spares_canonical_spec (fs : FS) (s : String)
    (hmem : [s] ∈ fs) (hspec : strEndsWith s ".spec" = true) :
    (Event.unlink [s] ∈ (clean_build fs).2 ↔ s ≠ "tak-manager.spec") ∧
    (["tak-manager.spec"] ∈ fs → ["tak-manager.spec"] ∈ (clean_build fs).1) := by
  constructor
  · rw [unlink_mem_clean_build_iff]
    constructor
    · rintro ⟨-, hstray⟩
      unfold isStraySpec at hstray
      simp only [Bool.and_eq_true, Bool.not_eq_true', beq_eq_false_iff_ne] at hstray
      exact hstray.2
    · intro hne
      refine ⟨?_, ?_⟩
      · apply mem_cleanStep1 hmem
        · intro hpre
          have hs' : s = "build" := by simpa using singleton_prefix_iff.mp hpre
          subst hs'
          exact absurd hspec (by decide)
        · intro hpre
          have hs' : s = "dist" := by simpa using singleton_prefix_iff.mp hpre
          subst hs'
          exact absurd hspec (by decide)
        · intro hpre
          have hs' : s = "__pycache__" := by simpa using singleton_prefix_iff.mp hpre
          subst hs'
          exact absurd hspec (by decide)
      · unfold isStraySpec
        simp [hspec, hne]
  · intro hc
    apply mem_clean_build hc
    · intro hpre
      have := singleton_prefix_iff.mp hpre
      simp at this
    · intro hpre
      have := singleton_prefix_iff.mp hpre
      simp at this
    · decide
    · decide

/-- Witness for C7 at a concrete filesystem holding the canonical spec file
and one stray spec file. -/
theorem clean_build_spares_canonical_spec_witness :
    (["old.spec"] ∈ ([["tak-manager.spec"], ["old.spec"]] : FS) ∧
     strEndsWith "old.spec" ".spec" = true) ∧
    ((Event.unlink [("old.spec" : String)] ∈
        (clean_build [["tak-manager.spec"], ["old.spec"]]).2 ↔
        ("old.spec" : String) ≠ "tak-manager.spec") ∧
     (["tak-manager.spec"] ∈ ([["tak-manager.spec"], ["old.spec"]] : FS) →
      ["tak-manager.spec"] ∈ (clean_build [["tak-manager.spec"], ["old.spec"]]).1)) :=
  ⟨⟨by decide, by decide⟩,
   clean_build_spares_canonical_spec [["tak-manager.spec"], ["old.spec"]] "old.spec"
     (by decide) (by decide)⟩

/-! ### Lemmas about ensure_resources and the pipeline after it -/

lemma ensure_resources_eq_some {p f : String} (fs : FS) (hf : required_files p = some f) :
    ensure_resources p fs =
      (fsInsert ["resources"] fs,
       (if ["resources"] ∈ fs then ([] : List Event) else [Event.mkdir ["resources"]]) ++
       (if ["resources", f] ∈ fsInsert ["resources"] fs then
          [Event.checkExists ["resources", f]]
        else
          [Event.checkExists ["resources", f],
           Event.logWarning (f ++ " not found in resources directory")])) := by
  simp only [ensure_resources, hf]
  by_cases h2 : ["resources", f] ∈ fsInsert ["resources"] fs
  · simp [h2]
  · simp [h2]

lemma finishFromDebug_trace_mem {p : String} {env : Env} {preTr : List Event}
    {ds : FS × List Event × Outcome} {e : Event} (h : e ∈ preTr) :
    e ∈ (finishFromDebug p env preTr ds).trace := by
  unfold finishFromDebug
  split <;> simp [h]

lemma spawn_py_mem_finishFromResources (p : String) (env : Env) (tr : List Event)
    (er : FS × List Event) :
    Event.spawn pyinstallerCmd ∈ (finishFromResources p env tr er).trace := by
  simp only [finishFromResources]
  by_cases h : env.pyinstallerExit = 0
  · rw [if_pos h]
    exact finishFromDebug_trace_mem (by simp)
  · rw [if_neg h]
    simp

lemma ensure_resources_icon_spec {p f : String} (fs : FS)
    (hf : required_files p = some f) :
    ((ensure_resources p fs).2.filter isCheckEvent =
       [Event.checkExists ["resources", f]]) ∧
    (∀ g : String, g ≠ f →
       Event.checkExists ["resources", g] ∉ (ensure_resources p fs).2) ∧
    (["resources", f] ∉ fs →
       (∀ e ∈ (ensure_resources p fs).2,
          isCheckEvent e = true ∨ e = Event.mkdir ["resources"] ∨
          e = Event.logWarning (f ++ " not found in resources directory")) ∧
       Event.logWarning (f ++ " not found in resources directory") ∈
         (ensure_resources p fs).2) := by
  have he := ensure_resources_eq_some fs hf
  have hsnd : (ensure_resources p fs).2 =
      (if ["resources"] ∈ fs then ([] : List Event) else [Event.mkdir ["resources"]]) ++
      (if ["resources", f] ∈ fsInsert ["resources"] fs then
         [Event.checkExists ["resources", f]]
       else
         [Event.checkExists ["resources", f],
          Event.logWarning (f ++ " not found in resources directory")]) := by rw [he]
  refine ⟨?_, ?_, ?_⟩
  · rw [hsnd]
    by_cases hA : ["resources"] ∈ fs <;>
      by_cases hB : ["resources", f] ∈ fsInsert ["resources"] fs <;>
        simp [hA, hB, isCheckEvent]
  · intro g hg hmem
    rw [hsnd] at hmem
    by_cases hA : ["resources"] ∈ fs <;>
      by_cases hB : ["resources", f] ∈ fsInsert ["resources"] fs <;>
        simp [hA, hB] at hmem <;> exact hg hmem
  · intro hnot
    have hB : ["resources", f] ∉ fsInsert ["resources"] fs := by
      rw [mem_fsInsert]
      rintro (h | h)
      · simp at h
      · exact hnot h
    constructor
    · intro e he
      rw [hsnd, if_neg hB] at he
      by_cases hA : ["resources"] ∈ fs
      · simp [hA] at he
        rcases he with rfl | rfl
        · exact Or.inl rfl
        · exact Or.inr (Or.inr rfl)
      · simp [hA] at he
        rcases he with rfl | rfl | rfl
        · exact Or.inr (Or.inl rfl)
        · exact Or.inl rfl
        · exact Or.inr (Or.inr rfl)
    · rw [hsnd, if_neg hB]
      simp

/-- C3: for each of the three platform values, ensure_resources checks the
existence of exactly the one icon file mapped to that platform
(`resources/icon.icns` on darwin, `resources/icon.ico` on win32,
`resources/icon.png` on linux) and checks no other file; when that icon is
absent ensure_resources only creates the resources directory, checks, and
logs a warning — there is no failing event, no exit, and the pipeline
afterwards still reaches the native-packager spawn. -/
theorem ensure_resources_checks_exactly_platform_icon (p : String) (fs : FS)
    (hp : p = "darwin" ∨ p = "win32" ∨ p = "linux") :
    (iconFileName "darwin" = "icon.icns" ∧ iconFileName "win32" = "icon.ico" ∧
     iconFileName "linux" = "icon.png") ∧
    ((ensure_resources p fs).2.filter isCheckEvent =
       [Event.checkExists ["resources", iconFileName p]]) ∧
    (∀ g : String, g ≠ iconFileName p →
       Event.checkExists ["resources", g] ∉ (ensure_resources p fs).2) ∧
    (["resources", iconFileName p] ∉ fs →
       (∀ e ∈ (ensure_resources p fs).2,
          isCheckEvent e = true ∨ e = Event.mkdir ["resources"] ∨
          e = Event.logWarning (iconFileName p ++ " not found in resources directory")) ∧
       Event.logWarning (iconFileName p ++ " not found in resources directory") ∈
         (ensure_resources p fs).2) ∧
    (∀ (env : Env) (tr : List Event),
       Event.spawn pyinstallerCmd ∈
         (finishFromResources p env tr (ensure_resources p fs)).trace) := by
  refine ⟨⟨rfl, rfl, rfl⟩, ?_⟩
  have hcont : ∀ (env : Env) (tr : List Event),
      Event.spawn pyinstallerCmd ∈
        (finishFromResources p env tr (ensure_resources p fs)).trace :=
    fun env tr => spawn_py_mem_finishFromResources p env tr _
  rcases hp with rfl | rfl | rfl
  · have h := ensure_resources_icon_spec (p := "darwin") (f := "icon.icns") fs rfl
    exact ⟨h.1, h.2.1, h.2.2, hcont⟩
  · have h := ensure_resources_icon_spec (p := "win32") (f := "icon.ico") fs rfl
    exact ⟨h.1, h.2.1, h.2.2, hcont⟩
  · have h := ensure_resources_icon_spec (p := "linux") (f := "icon.png") fs rfl
    exact ⟨h.1, h.2.1, h.2.2, hcont⟩

/-! ### Event classification lemmas -/

lemma benign_not_npmSpawn {e : Event} (h : isBenignEvent e = true) : isNpmSpawn e = false := by
  cases e <;> simp_all [isBenignEvent, isNpmSpawn]

lemma benign_not_archiveAttempt {e : Event} (h : isBenignEvent e = true) :
    isArchiveAttempt e = false := by
  cases e <;> simp_all [isBenignEvent, isArchiveAttempt]

lemma benign_ne_spawn {e : Event} (h : isBenignEvent e = true) (cmd : List String) :
    e ≠ Event.spawn cmd := by
  cases e <;> simp_all [isBenignEvent]

lemma npmSpawn_not_archiveAttempt {e : Event} (h : isNpmSpawn e = true) :
    isArchiveAttempt e = false := by
  cases e with
  | spawn cmd =>
    cases cmd with
    | nil => simp [isNpmSpawn] at h
    | cons c rest =>
      simp only [isNpmSpawn, Bool.or_eq_true, beq_iff_eq] at h
      rcases h with rfl | rfl <;> simp [isArchiveAttempt]
  | _ => simp [isNpmSpawn] at *

lemma npmSpawn_ne_pySpawn {e : Event} (h : isNpmSpawn e = true) :
    e ≠ Event.spawn pyinstallerCmd := by
  cases e with
  | spawn cmd =>
    cases cmd with
    | nil => simp [isNpmSpawn] at h
    | cons c rest =>
      simp only [isNpmSpawn, Bool.or_eq_true, beq_iff_eq] at h
      intro heq
      rw [Event.spawn.injEq] at heq
      rw [show pyinstallerCmd = ["pyinstaller", "tak-manager.spec", "--clean"] from rfl] at heq
      rw [List.cons.injEq] at heq
      rcases h with rfl | rfl <;> simp at heq
  | _ => simp [isNpmSpawn] at *

lemma isNpmSpawn_npmCmd (p : String) (rest : List String) :
    isNpmSpawn (Event.spawn ((if p = "win32" then "npm.cmd" else "npm") :: rest)) = true := by
  by_cases h : p = "win32" <;> simp [h, isNpmSpawn]

/-! ### Trace lemmas for clean_build -/

lemma removeIfExists_benign {d : String} {st : FS × List Event}
    (h : ∀ e ∈ st.2, isBenignEvent e = true) :
    ∀ e ∈ (removeIfExists d st).2, isBenignEvent e = true := by
  unfold removeIfExists
  by_cases hm : [d] ∈ st.1
  · rw [if_pos hm]
    intro e he
    simp at he
    rcases he with he | rfl | rfl | rfl
    · exact h e he
    · rfl
    · rfl
    · rfl
  · rw [if_neg hm]
    intro e he
    simp at he
    rcases he with he | rfl
    · exact h e he
    · rfl

lemma clean_build_benign (fs : FS) : ∀ e ∈ (clean_build fs).2, isBenignEvent e = true := by
  intro e he
  unfold clean_build at he
  simp only [List.mem_append] at he
  rcases he with (he | he) | he
  · unfold cleanStep1 at he
    have base : ∀ e ∈ (Prod.snd (α := FS) (fs, ([] : List Event))), isBenignEvent e = true := by
      simp
    exact removeIfExists_benign (removeIfExists_benign (removeIfExists_benign base)) e he
  · unfold cleanStep2 at he
    rw [List.mem_flatMap] at he
    obtain ⟨r, -, hr⟩ := he
    simp at hr
    rcases hr with rfl | rfl
    · rfl
    · rfl
  · unfold cleanStep3 at he
    rw [List.mem_flatMap] at he
    obtain ⟨r, -, hr⟩ := he
    simp at hr
    rcases hr with rfl | rfl
    · rfl
    · rfl

/-! ### Lemmas about build_frontend -/

lemma build_frontend_not_mem (p : String) (env : Env) {fs : FS} (h : ["web"] ∉ fs) :
    build_frontend p env fs =
      (fs, [Event.checkExists ["web"], Event.logError "Web directory not found"],
       Outcome.exited 1) := by
  unfold build_frontend
  rw [if_neg h]

lemma build_frontend_exited_of_fail {p : String} {env : Env} {fs : FS}
    (h : env.npmInstallExit ≠ 0 ∨ env.npmBuildExit ≠ 0) :
    (build_frontend p env fs).2.2 = Outcome.exited 1 := by
  simp only [build_frontend]
  by_cases hw : ["web"] ∈ fs
  · rw [if_pos hw]
    by_cases hi : env.npmInstallExit = 0
    · rw [if_pos hi]
      have hb : ¬ env.npmBuildExit = 0 := by
        rcases h with h | h
        · exact absurd hi h
        · exact h
      rw [if_neg hb]
    · rw [if_neg hi]
  · rw [if_neg hw]

lemma build_frontend_ok {p : String} {env : Env} {fs : FS}
    (hw : ["web"] ∈ fs) (hi : env.npmInstallExit = 0) (hb : env.npmBuildExit = 0) :
    (build_frontend p env fs).2.2 = Outcome.ok := by
  simp only [build_frontend]
  rw [if_pos hw, if_pos hi, if_pos hb]

lemma build_frontend_fst_cases {p : String} {env : Env} {fs : FS} :
    ∀ q ∈ (build_frontend p env fs).1,
      q ∈ fs ∨ q ∈ env.npmInstallCreates ∨ q ∈ env.npmBuildCreates := by
  have hfs1 : ∀ q ∈ (if ["web", "dist"] ∈ fs then rmtree ["web", "dist"] fs else fs), q ∈ fs := by
    intro q hq
    split at hq
    · exact (mem_rmtree.mp hq).1
    · exact hq
  intro q hq
  simp only [build_frontend] at hq
  by_cases hw : ["web"] ∈ fs
  · rw [if_pos hw] at hq
    by_cases hi : env.npmInstallExit = 0
    · rw [if_pos hi] at hq
      by_cases hb : env.npmBuildExit = 0
      · rw [if_pos hb] at hq
        rcases mem_unionPaths.mp hq with hq | hq
        · rcases mem_unionPaths.mp hq with hq | hq
          · exact Or.inl (hfs1 q hq)
          · exact Or.inr (Or.inl hq)
        · exact Or.inr (Or.inr hq)
      · rw [if_neg hb] at hq
        rcases mem_unionPaths.mp hq with hq | hq
        · exact Or.inl (hfs1 q hq)
        · exact Or.inr (Or.inl hq)
    · rw [if_neg hi] at hq
      exact Or.inl (hfs1 q hq)
  · rw [if_neg hw] at hq
    exact Or.inl hq

lemma build_frontend_events_all {p : String} {env : Env} {fs : FS} :
    ((build_frontend p env fs).2.1).all (fun e => isBenignEvent e || isNpmSpawn e) = true := by
  simp only [build_frontend]
  by_cases hw : ["web"] ∈ fs
  · rw [if_pos hw]
    by_cases hi : env.npmInstallExit = 0
    · rw [if_pos hi]
      by_cases hb : env.npmBuildExit = 0
      · rw [if_pos hb]
        by_cases hd : ["web", "dist"] ∈ fs <;>
          simp [hd, isBenignEvent, isNpmSpawn_npmCmd]
      · rw [if_neg hb]
        by_cases hd : ["web", "dist"] ∈ fs <;>
          simp [hd, isBenignEvent, isNpmSpawn_npmCmd]
    · rw [if_neg hi]
      by_cases hd : ["web", "dist"] ∈ fs <;>
        simp [hd, isBenignEvent, isNpmSpawn_npmCmd]
  · rw [if_neg hw]
    simp [isBenignEvent]

lemma build_frontend_events {p : String} {env : Env} {fs : FS} :
    ∀ e ∈ (build_frontend p env fs).2.1,
      isBenignEvent e = true ∨ isNpmSpawn e = true := by
  intro e he
  have h := List.all_eq_true.mp build_frontend_events_all e he
  simpa using h

/-! ### Equations for the build_app pipeline stages -/

lemma build_app_eq (p : String) (env : Env) (fs0 : FS) :
    build_app p env fs0 =
      finishFromFrontend p env
        (Event.logInfo "Build log will be written to the log file" ::
          (clean_build (setup_logging p env.logStamp fs0)).2)
        (build_frontend p env (clean_build (setup_logging p env.logStamp fs0)).1) := rfl

lemma finishFromFrontend_exited {p : String} {env : Env} {tr : List Event}
    {bf : FS × List Event × Outcome} {c : Nat} (h : bf.2.2 = Outcome.exited c) :
    finishFromFrontend p env tr bf = ⟨bf.1, tr ++ bf.2.1, c⟩ := by
  unfold finishFromFrontend
  split <;> simp_all

lemma finishFromFrontend_ok {p : String} {env : Env} {tr : List Event}
    {bf : FS × List Event × Outcome} (h : bf.2.2 = Outcome.ok) :
    finishFromFrontend p env tr bf =
      finishFromResources p env (tr ++ bf.2.1) (ensure_resources p bf.1) := by
  unfold finishFromFrontend
  split <;> simp_all

lemma finishFromResources_pos {p : String} {env : Env} {tr : List Event}
    {er : FS × List Event} (h : env.pyinstallerExit = 0) :
    finishFromResources p env tr er =
      finishFromDebug p env
        (tr ++ er.2 ++
          [Event.logInfo "Building application with PyInstaller...",
           Event.spawn pyinstallerCmd])
        (create_debug_script p (unionPaths er.1 env.pyinstallerCreates)) := by
  simp only [finishFromResources]
  rw [if_pos h]

lemma finishFromDebug_ok {p : String} {env : Env} {tr : List Event}
    {ds : FS × List Event × Outcome} (h : ds.2.2 = Outcome.ok) :
    finishFromDebug p env tr ds =
      ⟨(archiveStage p env ds.1).1,
       tr ++ ds.2.1 ++ (archiveStage p env ds.1).2 ++
         [Event.logInfo "Build completed successfully!",
          Event.logInfo "Output can be found in the dist directory"],
       0⟩ := by
  unfold finishFromDebug
  split <;> simp_all

/-! ### Lemmas about create_debug_script and archiveStage -/

lemma create_debug_script_darwin_mem {fs : FS} (h : ["dist"] ∈ fs) :
    create_debug_script "darwin" fs =
      (fsInsert debugScriptPath fs,
       [Event.writeFile debugScriptPath, Event.chmod debugScriptPath 493,
        Event.logInfo "Created debug launch script"],
       Outcome.ok) := by
  unfold create_debug_script
  rw [if_pos rfl, if_pos h]

lemma create_debug_script_not_darwin (p : String) (fs : FS) (h : p ≠ "darwin") :
    create_debug_script p fs = (fs, [], Outcome.ok) := by
  unfold create_debug_script
  rw [if_neg h]

lemma create_debug_script_fst_cases {p : String} {fs : FS} :
    ∀ q ∈ (create_debug_script p fs).1, q = debugScriptPath ∨ q ∈ fs := by
  intro q hq
  unfold create_debug_script at hq
  by_cases hp : p = "darwin"
  · rw [if_pos hp] at hq
    by_cases hd : ["dist"] ∈ fs
    · rw [if_pos hd] at hq
      exact mem_fsInsert.mp hq
    · rw [if_neg hd] at hq
      exact Or.inr hq
  · rw [if_neg hp] at hq
    exact Or.inr hq

lemma create_debug_script_fst_mono {p : String} {fs : FS} {q : FsPath} (h : q ∈ fs) :
    q ∈ (create_debug_script p fs).1 := by
  unfold create_debug_script
  by_cases hp : p = "darwin"
  · rw [if_pos hp]
    by_cases hd : ["dist"] ∈ fs
    · rw [if_pos hd]
      exact mem_fsInsert_of_mem h
    · rw [if_neg hd]
      exact h
  · rw [if_neg hp]
    exact h

lemma create_debug_script_events {p : String} {fs : FS} :
    ∀ e ∈ (create_debug_script p fs).2.1, isBenignEvent e = true := by
  intro e he
  unfold create_debug_script at he
  by_cases hp : p = "darwin"
  · rw [if_pos hp] at he
    by_cases hd : ["dist"] ∈ fs
    · rw [if_pos hd] at he
      simp at he
      rcases he with rfl | rfl | rfl <;> rfl
    · rw [if_neg hd] at he
      simp at he
  · rw [if_neg hp] at he
    simp at he

lemma archiveStage_darwin_mem {env : Env} {fs : FS} (h : ["dist", "TAK Manager.app"] ∈ fs) :
    archiveStage "darwin" env fs =
      (fsInsert ["dist", "TAK-Manager-macOS.zip"] fs,
       [Event.checkExists ["dist", "TAK Manager.app"],
        Event.logInfo "Creating macOS ZIP archive...",
        Event.makeArchive "dist/TAK-Manager-macOS" "zip" "dist" (some "TAK Manager.app")]) := by
  unfold archiveStage
  rw [if_pos rfl, if_pos h]

lemma archiveStage_win32_mem {env : Env} {fs : FS} (h : ["dist", "TAK Manager"] ∈ fs) :
    archiveStage "win32" env fs =
      (fsInsert ["dist", "TAK-Manager-Windows.zip"] fs,
       [Event.checkExists ["dist", "TAK Manager"],
        Event.logInfo "Creating Windows distribution archive...",
        Event.makeArchive "dist/TAK-Manager-Windows" "zip" "dist/TAK Manager" none]) := by
  unfold archiveStage
  rw [if_neg (by decide), if_pos rfl, if_pos h]

lemma archiveStage_other_mem {p : String} {env : Env} {fs : FS}
    (h1 : p ≠ "darwin") (h2 : p ≠ "win32") (h : ["dist", "tak-manager"] ∈ fs) :
    archiveStage p env fs =
      ((if env.tarExit = 0 then fsInsert ["dist", "TAK-Manager-Linux.tar.gz"] fs else fs),
       [Event.checkExists ["dist", "tak-manager"],
        Event.logInfo "Creating Linux distribution archive...",
        Event.spawn tarCmd]) := by
  unfold archiveStage
  rw [if_neg h1, if_neg h2, if_pos h]

lemma archiveStage_absent {p : String} {env : Env} {fs : FS}
    (h : expectedAppPath p ∉ fs) :
    archiveStage p env fs = (fs, [Event.checkExists (expectedAppPath p)]) := by
  unfold archiveStage expectedAppPath
  unfold expectedAppPath at h
  by_cases h1 : p = "darwin"
  · rw [if_pos h1] at h
    rw [if_pos h1, if_neg h]
    simp [h1]
  · rw [if_neg h1] at h
    rw [if_neg h1]
    by_cases h2 : p = "win32"
    · rw [if_pos h2] at h
      rw [if_pos h2, if_neg h]
      simp [h1, h2]
    · rw [if_neg h2] at h
      rw [if_neg h2, if_neg h]
      simp [h1, h2]

/-! ### Concrete environments used by the witnesses -/

/-- C1: if the npm install step or the npm build step inside build_frontend
exits with a non-zero status, the process terminates with a non-zero exit
status and the native packager (the pyinstaller subprocess of build_app) is
never spawned in that run. -/
theorem npm_failure_halts_before_pyinstaller (p : String) (env : Env) (fs0 : FS)
    (h : env.npmInstallExit ≠ 0 ∨ env.npmBuildExit ≠ 0) :
    (build_app p env fs0).exitCode ≠ 0 ∧
    Event.spawn pyinstallerCmd ∉ (build_app p env fs0).trace := by
  have hbf : (build_frontend p env (clean_build (setup_logging p env.logStamp fs0)).1).2.2 =
      Outcome.exited 1 := build_frontend_exited_of_fail h
  rw [build_app_eq, finishFromFrontend_exited hbf]
  refine ⟨by simp, ?_⟩
  intro hmem
  have hmem' : Event.spawn pyinstallerCmd ∈
      (Event.logInfo "Build log will be written to the log file" ::
        (clean_build (setup_logging p env.logStamp fs0)).2) ++
      (build_frontend p env (clean_build (setup_logging p env.logStamp fs0)).1).2.1 := hmem
  rcases List.mem_append.mp hmem' with hm | hm
  · rcases List.mem_cons.mp hm with heq | hcl
    · simp at heq
    · have hb := clean_build_benign _ _ hcl
      simp [isBenignEvent] at hb
  · rcases build_frontend_events _ hm with hb | hn
    · simp [isBenignEvent] at hb
    · exact npmSpawn_ne_pySpawn hn rfl

/-- Witness for C1: with a failing `npm install`, the run on linux from a
filesystem holding only `web/` exits non-zero and never spawns
pyinstaller. -/
theorem npm_failure_halts_before_pyinstaller_witness :
    (envNpmFail.npmInstallExit ≠ 0 ∨ envNpmFail.npmBuildExit ≠ 0) ∧
    ((build_app "linux" envNpmFail [["web"]]).exitCode ≠ 0 ∧
     Event.spawn pyinstallerCmd ∉ (build_app "linux" envNpmFail [["web"]]).trace) :=
  ⟨Or.inl (by decide),
   npm_failure_halts_before_pyinstaller "linux" envNpmFail [["web"]] (Or.inl (by decide))⟩

/-- C2: if the frontend source directory `web/` does not exist,
build_frontend never spawns the package manager (the whole run's trace holds
no npm spawn) and the process exits with a non-zero status. -/
theorem missing_web_halts_without_npm (p : String) (env : Env) (fs0 : FS)
    (h : ["web"] ∉ fs0) :
    (build_app p env fs0).exitCode ≠ 0 ∧
    ∀ e ∈ (build_app p env fs0).trace, isNpmSpawn e = false := by
  have hsetup : ["web"] ∉ setup_logging p env.logStamp fs0 := by
    intro hmem
    exact h ((mem_setup_logging_iff (by decide)).mp hmem)
  have hclean : ["web"] ∉ (clean_build (setup_logging p env.logStamp fs0)).1 :=
    fun hmem => hsetup (clean_build_fst_subset _ hmem)
  have hbf := build_frontend_not_mem p env hclean
  have hout : (build_frontend p env (clean_build (setup_logging p env.logStamp fs0)).1).2.2 =
      Outcome.exited 1 := by rw [hbf]
  rw [build_app_eq, finishFromFrontend_exited hout]
  refine ⟨by simp, ?_⟩
  intro e he
  have he' : e ∈
      (Event.logInfo "Build log will be written to the log file" ::
        (clean_build (setup_logging p env.logStamp fs0)).2) ++
      (build_frontend p env (clean_build (setup_logging p env.logStamp fs0)).1).2.1 := he
  rcases List.mem_append.mp he' with h1 | h1
  · rcases List.mem_cons.mp h1 with rfl | h1
    · rfl
    · exact benign_not_npmSpawn (clean_build_benign _ _ h1)
  · rw [hbf] at h1
    simp at h1
    rcases h1 with rfl | rfl <;> rfl

/-- Witness for C2: a run on darwin from an empty filesystem exits non-zero
and its trace holds no npm spawn. -/
theorem missing_web_halts_without_npm_witness :
    (["web"] ∉ ([] : FS)) ∧
    ((build_app "darwin" envAllOk []).exitCode ≠ 0 ∧
     ∀ e ∈ (build_app "darwin" envAllOk []).trace, isNpmSpawn e = false) :=
  ⟨by decide, missing_web_halts_without_npm "darwin" envAllOk [] (by decide)⟩

/-- Witness for C3 at platform darwin on the empty filesystem. -/
theorem ensure_resources_checks_exactly_platform_icon_witness :
    (("darwin" : String) = "darwin" ∨ ("darwin" : String) = "win32" ∨
     ("darwin" : String) = "linux") ∧
    ((iconFileName "darwin" = "icon.icns" ∧ iconFileName "win32" = "icon.ico" ∧
      iconFileName "linux" = "icon.png") ∧
     ((ensure_resources "darwin" ([] : FS)).2.filter isCheckEvent =
        [Event.checkExists ["resources", iconFileName "darwin"]]) ∧
     (∀ g : String, g ≠ iconFileName "darwin" →
        Event.checkExists ["resources", g] ∉ (ensure_resources "darwin" ([] : FS)).2) ∧
     (["resources", iconFileName "darwin"] ∉ ([] : FS) →
        (∀ e ∈ (ensure_resources "darwin" ([] : FS)).2,
           isCheckEvent e = true ∨ e = Event.mkdir ["resources"] ∨
           e = Event.logWarning (iconFileName "darwin" ++ " not found in resources directory")) ∧
        Event.logWarning (iconFileName "darwin" ++ " not found in resources directory") ∈
          (ensure_resources "darwin" ([] : FS)).2) ∧
     (∀ (env : Env) (tr : List Event),
        Event.spawn pyinstallerCmd ∈
          (finishFromResources "darwin" env tr (ensure_resources "darwin" ([] : FS))).trace)) :=
  ⟨Or.inl rfl,
   ensure_resources_checks_exactly_platform_icon "darwin" [] (Or.inl rfl)⟩

/-- C5: on darwin, when the packaging step has produced
`dist/TAK Manager.app`, build_app calls `make_archive` with base name
`dist/TAK-Manager-macOS`, format zip, root dir `dist` and base dir
`TAK Manager.app` (so the zip contains the bundle as its top-level entry),
the archive `dist/TAK-Manager-macOS.zip` exists afterwards, and
create_debug_script wrote `dist/debug_launch.command` and chmodded it to
0o755 (= 493), the script existing afterwards; the run exits 0. -/
theorem darwin_archives_bundle_and_debug_script (env : Env) (fs0 : FS)
    (hw : ["web"] ∈ fs0) (hi : env.npmInstallExit = 0) (hb : env.npmBuildExit = 0)
    (hpy : env.pyinstallerExit = 0)
    (hd : ["dist"] ∈ env.pyinstallerCreates)
    (ha : ["dist", "TAK Manager.app"] ∈ env.pyinstallerCreates) :
    (build_app "darwin" env fs0).exitCode = 0 ∧
    Event.makeArchive "dist/TAK-Manager-macOS" "zip" "dist" (some "TAK Manager.app") ∈
      (build_app "darwin" env fs0).trace ∧
    ["dist", "TAK-Manager-macOS.zip"] ∈ (build_app "darwin" env fs0).fs ∧
    Event.writeFile debugScriptPath ∈ (build_app "darwin" env fs0).trace ∧
    Event.chmod debugScriptPath 493 ∈ (build_app "darwin" env fs0).trace ∧
    debugScriptPath ∈ (build_app "darwin" env fs0).fs := by
  rw [build_app_eq]
  generalize hcl : clean_build (setup_logging "darwin" env.logStamp fs0) = cl
  have hwC : ["web"] ∈ cl.1 := by
    rw [← hcl]
    exact mem_clean_build (mem_setup_logging_of_mem hw)
      (by decide) (by decide) (by decide) (by decide)
  generalize hbfe : build_frontend "darwin" env cl.1 = bf
  have hbfo : bf.2.2 = Outcome.ok := by
    rw [← hbfe]
    exact build_frontend_ok hwC hi hb
  rw [finishFromFrontend_ok hbfo]
  rw [finishFromResources_pos hpy]
  generalize here : ensure_resources "darwin" bf.1 = er
  generalize hfs4 : unionPaths er.1 env.pyinstallerCreates = fs4
  have h4d : ["dist"] ∈ fs4 := by
    rw [← hfs4]
    exact mem_unionPaths.mpr (Or.inr hd)
  have h4a : ["dist", "TAK Manager.app"] ∈ fs4 := by
    rw [← hfs4]
    exact mem_unionPaths.mpr (Or.inr ha)
  have hds := create_debug_script_darwin_mem h4d
  have hds1 : (create_debug_script "darwin" fs4).1 = fsInsert debugScriptPath fs4 := by
    rw [hds]
  have hds2 : (create_debug_script "darwin" fs4).2.1 =
      [Event.writeFile debugScriptPath, Event.chmod debugScriptPath 493,
       Event.logInfo "Created debug launch script"] := by
    rw [hds]
  rw [finishFromDebug_ok (by rw [hds])]
  rw [hds1, hds2]
  have hmemApp : ["dist", "TAK Manager.app"] ∈ fsInsert debugScriptPath fs4 :=
    mem_fsInsert_of_mem h4a
  rw [archiveStage_darwin_mem hmemApp]
  refine ⟨rfl, ?_, ?_, ?_, ?_, ?_⟩
  · simp
  · exact mem_fsInsert.mpr (Or.inl rfl)
  · simp
  · simp
  · exact mem_fsInsert_of_mem (mem_fsInsert.mpr (Or.inl rfl))

/-- Witness for C5 on a filesystem holding only the frontend sources. -/
theorem darwin_archives_bundle_and_debug_script_witness :
    (["web"] ∈ ([[("web" : String)]] : FS) ∧ envDarwinOk.npmInstallExit = 0 ∧
     envDarwinOk.npmBuildExit = 0 ∧ envDarwinOk.pyinstallerExit = 0 ∧
     ["dist"] ∈ envDarwinOk.pyinstallerCreates ∧
     ["dist", "TAK Manager.app"] ∈ envDarwinOk.pyinstallerCreates) ∧
    ((build_app "darwin" envDarwinOk [["web"]]).exitCode = 0 ∧
     Event.makeArchive "dist/TAK-Manager-macOS" "zip" "dist" (some "TAK Manager.app") ∈
       (build_app "darwin" envDarwinOk [["web"]]).trace ∧
     ["dist", "TAK-Manager-macOS.zip"] ∈ (build_app "darwin" envDarwinOk [["web"]]).fs ∧
     Event.writeFile debugScriptPath ∈ (build_app "darwin" envDarwinOk [["web"]]).trace ∧
     Event.chmod debugScriptPath 493 ∈ (build_app "darwin" envDarwinOk [["web"]]).trace ∧
     debugScriptPath ∈ (build_app "darwin" envDarwinOk [["web"]]).fs) :=
  ⟨⟨by decide, by decide, by decide, by decide, by decide, by decide⟩,
   darwin_archives_bundle_and_debug_script envDarwinOk [["web"]]
     (by decide) (by decide) (by decide) (by decide) (by decide) (by decide)⟩

/-- C6: on linux, when the packaging step has produced `dist/tak-manager`
and tar succeeds, build_app spawns the external tar tool with exactly the
arguments `czf dist/TAK-Manager-Linux.tar.gz -C dist tak-manager` (so the
archive is rooted at a top-level `tak-manager/` directory) and the archive
`dist/TAK-Manager-Linux.tar.gz` exists afterwards; the run exits 0. -/
theorem linux_tars_with_top_directory (env : Env) (fs0 : FS)
    (hw : ["web"] ∈ fs0) (hi : env.npmInstallExit = 0) (hb : env.npmBuildExit = 0)
    (hpy : env.pyinstallerExit = 0) (ht : env.tarExit = 0)
    (hm : ["dist", "tak-manager"] ∈ env.pyinstallerCreates) :
    tarCmd = ["tar", "czf", "dist/TAK-Manager-Linux.tar.gz", "-C", "dist", "tak-manager"] ∧
    Event.spawn tarCmd ∈ (build_app "linux" env fs0).trace ∧
    ["dist", "TAK-Manager-Linux.tar.gz"] ∈ (build_app "linux" env fs0).fs ∧
    (build_app "linux" env fs0).exitCode = 0 := by
  rw [build_app_eq]
  generalize hcl : clean_build (setup_logging "linux" env.logStamp fs0) = cl
  have hwC : ["web"] ∈ cl.1 := by
    rw [← hcl]
    exact mem_clean_build (mem_setup_logging_of_mem hw)
      (by decide) (by decide) (by decide) (by decide)
  generalize hbfe : build_frontend "linux" env cl.1 = bf
  have hbfo : bf.2.2 = Outcome.ok := by
    rw [← hbfe]
    exact build_frontend_ok hwC hi hb
  rw [finishFromFrontend_ok hbfo]
  rw [finishFromResources_pos hpy]
  generalize here : ensure_resources "linux" bf.1 = er
  generalize hfs4 : unionPaths er.1 env.pyinstallerCreates = fs4
  have h4m : ["dist", "tak-manager"] ∈ fs4 := by
    rw [← hfs4]
    exact mem_unionPaths.mpr (Or.inr hm)
  have hds := create_debug_script_not_darwin "linux" fs4 (by decide)
  have hds1 : (create_debug_script "linux" fs4).1 = fs4 := by rw [hds]
  have hds2 : (create_debug_script "linux" fs4).2.1 = [] := by rw [hds]
  rw [finishFromDebug_ok (by rw [hds])]
  rw [hds1, hds2]
  rw [archiveStage_other_mem (by decide) (by decide) h4m]
  rw [if_pos ht]
  refine ⟨rfl, ?_, ?_, rfl⟩
  · simp
  · exact mem_fsInsert.mpr (Or.inl rfl)

/-- Witness for C6 on a filesystem holding only the frontend sources. -/
theorem linux_tars_with_top_directory_witness :
    (["web"] ∈ ([[("web" : String)]] : FS) ∧ envLinuxOk.npmInstallExit = 0 ∧
     envLinuxOk.npmBuildExit = 0 ∧ envLinuxOk.pyinstallerExit = 0 ∧
     envLinuxOk.tarExit = 0 ∧ ["dist", "tak-manager"] ∈ envLinuxOk.pyinstallerCreates) ∧
    (tarCmd = ["tar", "czf", "dist/TAK-Manager-Linux.tar.gz", "-C", "dist", "tak-manager"] ∧
     Event.spawn tarCmd ∈ (build_app "linux" envLinuxOk [["web"]]).trace ∧
     ["dist", "TAK-Manager-Linux.tar.gz"] ∈ (build_app "linux" envLinuxOk [["web"]]).fs ∧
     (build_app "linux" envLinuxOk [["web"]]).exitCode = 0) :=
  ⟨⟨by decide, by decide, by decide, by decide, by decide, by decide⟩,
   linux_tars_with_top_directory envLinuxOk [["web"]]
     (by decide) (by decide) (by decide) (by decide) (by decide) (by decide)⟩

/-! ### The dist subtree after clean_build, and further stage facts -/

lemma ensure_resources_fst (p : String) (fs : FS) :
    (ensure_resources p fs).1 = fsInsert ["resources"] fs := by
  unfold ensure_resources
  cases hrf : required_files p with
  | none => rfl
  | some f =>
    dsimp only
    split <;> rfl

lemma ensure_resources_events_benign (p : String) (fs : FS) :
    ∀ e ∈ (ensure_resources p fs).2, isBenignEvent e = true := by
  intro e he
  unfold ensure_resources at he
  cases hrf : required_files p with
  | none =>
    rw [hrf] at he
    by_cases hres : ["resources"] ∈ fs <;> simp [hres] at he
    subst he
    rfl
  | some f =>
    rw [hrf] at he
    by_cases hicon : ["resources", f] ∈ fsInsert ["resources"] fs
    · by_cases hres : ["resources"] ∈ fs
      · simp [hicon, hres] at he
        subst he
        rfl
      · simp [hicon, hres] at he
        rcases he with rfl | rfl <;> rfl
    · by_cases hres : ["resources"] ∈ fs
      · simp [hicon, hres] at he
        rcases he with rfl | rfl <;> rfl
      · simp [hicon, hres] at he
        rcases he with rfl | rfl | rfl <;> rfl

lemma not_mem_removeIfExists_prefixed {d : String} {st : FS × List Event} {q : FsPath}
    (hd : [d] ∈ st.1) (hq : [d] <+: q) : q ∉ (removeIfExists d st).1 := by
  unfold removeIfExists
  rw [if_pos hd]
  intro hmem
  exact (mem_rmtree.mp hmem).2 hq

lemma mem_setup_logging_cases {q : FsPath} {p s : String} {fs : FS}
    (h : q ∈ setup_logging p s fs) : q.head? = some "logs" ∨ q ∈ fs := by
  unfold setup_logging at h
  split at h
  · exact Or.inr h
  · rcases mem_fsInsert.mp h with rfl | h
    · exact Or.inl rfl
    · rcases mem_fsInsert.mp h with rfl | h
      · exact Or.inl rfl
      · exact Or.inr h

lemma setup_logging_dist_closed {p s : String} {fs0 : FS}
    (hdc : ∀ q ∈ fs0, ["dist"] <+: q → ["dist"] ∈ fs0) :
    ∀ q ∈ setup_logging p s fs0, ["dist"] <+: q → ["dist"] ∈ setup_logging p s fs0 := by
  intro q hq hpre
  rcases mem_setup_logging_cases hq with hl | hq0
  · have : q.head? = some "dist" := singleton_prefix_iff.mp hpre
    rw [this] at hl
    simp at hl
  · exact mem_setup_logging_of_mem (hdc q hq0 hpre)

lemma clean_build_no_dist_prefixed {fs : FS}
    (hdc : ∀ q ∈ fs, ["dist"] <+: q → ["dist"] ∈ fs) {q : FsPath}
    (hq : ["dist"] <+: q) : q ∉ (clean_build fs).1 := by
  intro hmem
  have hqfs : q ∈ fs := clean_build_fst_subset _ hmem
  have hdist : ["dist"] ∈ fs := hdc q hqfs hq
  have hmem1 : q ∈ (cleanStep1 fs).1 := by
    rw [clean_build_fst_eq] at hmem
    exact cleanStep2_fst_subset _ (cleanStep3_fst_subset _ hmem)
  unfold cleanStep1 at hmem1
  have hmem2 : q ∈ (removeIfExists "dist" (removeIfExists "build" (fs, []))).1 :=
    removeIfExists_fst_subset _ _ hmem1
  have hdist1 : ["dist"] ∈ (removeIfExists "build" (fs, ([] : List Event))).1 :=
    mem_removeIfExists hdist (by decide)
  exact not_mem_removeIfExists_prefixed hdist1 hq hmem2

lemma expectedAppPath_dist_prefixed (p : String) : ["dist"] <+: expectedAppPath p := by
  unfold expectedAppPath
  by_cases h1 : p = "darwin"
  · rw [if_pos h1]
    decide
  · rw [if_neg h1]
    by_cases h2 : p = "win32"
    · rw [if_pos h2]
      decide
    · rw [if_neg h2]
      decide

lemma expectedAppPath_ne_debug (p : String) : expectedAppPath p ≠ debugScriptPath := by
  unfold expectedAppPath debugScriptPath
  by_cases h1 : p = "darwin"
  · rw [if_pos h1]
    decide
  · rw [if_neg h1]
    by_cases h2 : p = "win32"
    · rw [if_pos h2]
      decide
    · rw [if_neg h2]
      decide

lemma expectedAppPath_ne_resources (p : String) : expectedAppPath p ≠ ["resources"] := by
  unfold expectedAppPath
  by_cases h1 : p = "darwin"
  · rw [if_pos h1]
    decide
  · rw [if_neg h1]
    by_cases h2 : p = "win32"
    · rw [if_pos h2]
      decide
    · rw [if_neg h2]
      decide

/-- C9: on linux, a non-zero exit status from the tar subprocess does not
terminate the build and does not affect the process exit status: tar is
spawned without an exit-code check, so the run still logs success and exits
0 while the archive `dist/TAK-Manager-Linux.tar.gz` does not exist. -/
theorem linux_tar_failure_still_exits_zero (env : Env) (fs0 : FS)
    (hdc : ∀ q ∈ fs0, ["dist"] <+: q → ["dist"] ∈ fs0)
    (hw : ["web"] ∈ fs0) (hi : env.npmInstallExit = 0) (hb : env.npmBuildExit = 0)
    (hpy : env.pyinstallerExit = 0) (ht : env.tarExit ≠ 0)
    (hm : ["dist", "tak-manager"] ∈ env.pyinstallerCreates)
    (ha1 : ["dist", "TAK-Manager-Linux.tar.gz"] ∉ env.npmInstallCreates)
    (ha2 : ["dist", "TAK-Manager-Linux.tar.gz"] ∉ env.npmBuildCreates)
    (ha3 : ["dist", "TAK-Manager-Linux.tar.gz"] ∉ env.pyinstallerCreates) :
    (build_app "linux" env fs0).exitCode = 0 ∧
    Event.spawn tarCmd ∈ (build_app "linux" env fs0).trace ∧
    Event.logInfo "Build completed successfully!" ∈ (build_app "linux" env fs0).trace ∧
    ["dist", "TAK-Manager-Linux.tar.gz"] ∉ (build_app "linux" env fs0).fs := by
  rw [build_app_eq]
  generalize hcl : clean_build (setup_logging "linux" env.logStamp fs0) = cl
  have hwC : ["web"] ∈ cl.1 := by
    rw [← hcl]
    exact mem_clean_build (mem_setup_logging_of_mem hw)
      (by decide) (by decide) (by decide) (by decide)
  have harC : ["dist", "TAK-Manager-Linux.tar.gz"] ∉ cl.1 := by
    rw [← hcl]
    exact clean_build_no_dist_prefixed (setup_logging_dist_closed hdc) (by decide)
  generalize hbfe : build_frontend "linux" env cl.1 = bf
  have hbfo : bf.2.2 = Outcome.ok := by
    rw [← hbfe]
    exact build_frontend_ok hwC hi hb
  have harB : ["dist", "TAK-Manager-Linux.tar.gz"] ∉ bf.1 := by
    rw [← hbfe]
    intro hmem
    rcases build_frontend_fst_cases _ hmem with h | h | h
    · exact harC h
    · exact ha1 h
    · exact ha2 h
  rw [finishFromFrontend_ok hbfo]
  rw [finishFromResources_pos hpy]
  generalize here : ensure_resources "linux" bf.1 = er
  have harE : ["dist", "TAK-Manager-Linux.tar.gz"] ∉ er.1 := by
    rw [← here, ensure_resources_fst]
    intro hmem
    rcases mem_fsInsert.mp hmem with heq | hmem2
    · simp at heq
    · exact harB hmem2
  generalize hfs4 : unionPaths er.1 env.pyinstallerCreates = fs4
  have h4m : ["dist", "tak-manager"] ∈ fs4 := by
    rw [← hfs4]
    exact mem_unionPaths.mpr (Or.inr hm)
  have har4 : ["dist", "TAK-Manager-Linux.tar.gz"] ∉ fs4 := by
    rw [← hfs4]
    intro hmem
    rcases mem_unionPaths.mp hmem with h | h
    · exact harE h
    · exact ha3 h
  have hds := create_debug_script_not_darwin "linux" fs4 (by decide)
  have hds1 : (create_debug_script "linux" fs4).1 = fs4 := by rw [hds]
  have hds2 : (create_debug_script "linux" fs4).2.1 = [] := by rw [hds]
  rw [finishFromDebug_ok (by rw [hds])]
  rw [hds1, hds2]
  rw [archiveStage_other_mem (by decide) (by decide) h4m]
  rw [if_neg ht]
  refine ⟨rfl, ?_, ?_, har4⟩
  · simp
  · simp

/-- Witness for C9 on a filesystem holding only the frontend sources. -/
theorem linux_tar_failure_still_exits_zero_witness :
    ((∀ q ∈ ([[("web" : String)]] : FS), ["dist"] <+: q → ["dist"] ∈ ([["web"]] : FS)) ∧
     ["web"] ∈ ([[("web" : String)]] : FS) ∧
     envLinuxTarFail.npmInstallExit = 0 ∧ envLinuxTarFail.npmBuildExit = 0 ∧
     envLinuxTarFail.pyinstallerExit = 0 ∧ envLinuxTarFail.tarExit ≠ 0 ∧
     ["dist", "tak-manager"] ∈ envLinuxTarFail.pyinstallerCreates ∧
     ["dist", "TAK-Manager-Linux.tar.gz"] ∉ envLinuxTarFail.npmInstallCreates ∧
     ["dist", "TAK-Manager-Linux.tar.gz"] ∉ envLinuxTarFail.npmBuildCreates ∧
     ["dist", "TAK-Manager-Linux.tar.gz"] ∉ envLinuxTarFail.pyinstallerCreates) ∧
    ((build_app "linux" envLinuxTarFail [["web"]]).exitCode = 0 ∧
     Event.spawn tarCmd ∈ (build_app "linux" envLinuxTarFail [["web"]]).trace ∧
     Event.logInfo "Build completed successfully!" ∈
       (build_app "linux" envLinuxTarFail [["web"]]).trace ∧
     ["dist", "TAK-Manager-Linux.tar.gz"] ∉ (build_app "linux" envLinuxTarFail [["web"]]).fs) :=
  ⟨⟨by decide, by decide, by decide, by decide, by decide, by decide, by decide,
    by decide, by decide, by decide⟩,
   linux_tar_failure_still_exits_zero envLinuxTarFail [["web"]]
     (by decide) (by decide) (by decide) (by decide) (by decide) (by decide)
     (by decide) (by decide) (by decide) (by decide)⟩

/-- C8: for every platform, build_app attempts to create the distribution
archive only when the platform-expected output path exists under `dist/`
(`dist/TAK Manager.app` on darwin, `dist/TAK Manager` on win32,
`dist/tak-manager` otherwise); when that path is absent, the trace holds no
`make_archive` call and no tar spawn, while the run still logs success and
exits 0. -/
theorem archive_only_when_expected_output_exists (p : String) (env : Env) (fs0 : FS)
    (hdc : ∀ q ∈ fs0, ["dist"] <+: q → ["dist"] ∈ fs0)
    (hw : ["web"] ∈ fs0) (hi : env.npmInstallExit = 0) (hb : env.npmBuildExit = 0)
    (hpy : env.pyinstallerExit = 0)
    (hd : ["dist"] ∈ env.pyinstallerCreates)
    (h1 : expectedAppPath p ∉ env.npmInstallCreates)
    (h2 : expectedAppPath p ∉ env.npmBuildCreates)
    (h3 : expectedAppPath p ∉ env.pyinstallerCreates) :
    (build_app p env fs0).exitCode = 0 ∧
    Event.logInfo "Build completed successfully!" ∈ (build_app p env fs0).trace ∧
    ∀ e ∈ (build_app p env fs0).trace, isArchiveAttempt e = false := by
  rw [build_app_eq]
  generalize hcl : clean_build (setup_logging p env.logStamp fs0) = cl
  have hwC : ["web"] ∈ cl.1 := by
    rw [← hcl]
    exact mem_clean_build (mem_setup_logging_of_mem hw)
      (by decide) (by decide) (by decide) (by decide)
  have hclB : ∀ e ∈ cl.2, isBenignEvent e = true := by
    rw [← hcl]
    exact clean_build_benign _
  have hexpC : expectedAppPath p ∉ cl.1 := by
    rw [← hcl]
    exact clean_build_no_dist_prefixed (setup_logging_dist_closed hdc)
      (expectedAppPath_dist_prefixed p)
  generalize hbfe : build_frontend p env cl.1 = bf
  have hbfo : bf.2.2 = Outcome.ok := by
    rw [← hbfe]
    exact build_frontend_ok hwC hi hb
  have hbfE : ∀ e ∈ bf.2.1, isBenignEvent e = true ∨ isNpmSpawn e = true := by
    rw [← hbfe]
    exact build_frontend_events
  have hexpB : expectedAppPath p ∉ bf.1 := by
    rw [← hbfe]
    intro hmem
    rcases build_frontend_fst_cases _ hmem with h | h | h
    · exact hexpC h
    · exact h1 h
    · exact h2 h
  rw [finishFromFrontend_ok hbfo]
  rw [finishFromResources_pos hpy]
  generalize here : ensure_resources p bf.1 = er
  have herB : ∀ e ∈ er.2, isBenignEvent e = true := by
    rw [← here]
    exact ensure_resources_events_benign _ _
  have hexpE : expectedAppPath p ∉ er.1 := by
    rw [← here, ensure_resources_fst]
    intro hmem
    rcases mem_fsInsert.mp hmem with heq | hmem2
    · exact expectedAppPath_ne_resources p heq
    · exact hexpB hmem2
  generalize hfs4 : unionPaths er.1 env.pyinstallerCreates = fs4
  have h4d : ["dist"] ∈ fs4 := by
    rw [← hfs4]
    exact mem_unionPaths.mpr (Or.inr hd)
  have hexp4 : expectedAppPath p ∉ fs4 := by
    rw [← hfs4]
    intro hmem
    rcases mem_unionPaths.mp hmem with h | h
    · exact hexpE h
    · exact h3 h
  have htr : ∀ e ∈
      ((Event.logInfo "Build log will be written to the log file" :: cl.2) ++
        bf.2.1 ++ er.2 ++
        [Event.logInfo "Building application with PyInstaller...",
         Event.spawn pyinstallerCmd]),
      isArchiveAttempt e = false := by
    intro e he
    rcases List.mem_append.mp he with he | he
    · rcases List.mem_append.mp he with he | he
      · rcases List.mem_append.mp he with he | he
        · rcases List.mem_cons.mp he with rfl | he
          · rfl
          · exact benign_not_archiveAttempt (hclB e he)
        · rcases hbfE e he with hbe | hne
          · exact benign_not_archiveAttempt hbe
          · exact npmSpawn_not_archiveAttempt hne
      · exact benign_not_archiveAttempt (herB e he)
    · rcases List.mem_cons.mp he with rfl | he
      · rfl
      · rcases List.mem_cons.mp he with rfl | he
        · decide
        · simp at he
  by_cases hdar : p = "darwin"
  · subst hdar
    have hds := create_debug_script_darwin_mem h4d
    have hds1 : (create_debug_script "darwin" fs4).1 = fsInsert debugScriptPath fs4 := by
      rw [hds]
    have hds2 : (create_debug_script "darwin" fs4).2.1 =
        [Event.writeFile debugScriptPath, Event.chmod debugScriptPath 493,
         Event.logInfo "Created debug launch script"] := by
      rw [hds]
    rw [finishFromDebug_ok (by rw [hds])]
    rw [hds1, hds2]
    have hexpD : expectedAppPath "darwin" ∉ fsInsert debugScriptPath fs4 := by
      intro hmem
      rcases mem_fsInsert.mp hmem with heq | hmem4
      · exact expectedAppPath_ne_debug _ heq
      · exact hexp4 hmem4
    rw [archiveStage_absent hexpD]
    refine ⟨rfl, by simp, ?_⟩
    intro e he
    rcases List.mem_append.mp he with he | he
    · rcases List.mem_append.mp he with he | he
      · rcases List.mem_append.mp he with he | he
        · exact htr e he
        · simp at he
          rcases he with rfl | rfl | rfl <;> rfl
      · simp at he
        subst he
        rfl
    · simp at he
      rcases he with rfl | rfl <;> rfl
  · have hds := create_debug_script_not_darwin p fs4 hdar
    have hds1 : (create_debug_script p fs4).1 = fs4 := by rw [hds]
    have hds2 : (create_debug_script p fs4).2.1 = [] := by rw [hds]
    rw [finishFromDebug_ok (by rw [hds])]
    rw [hds1, hds2]
    rw [archiveStage_absent hexp4]
    refine ⟨rfl, by simp, ?_⟩
    intro e he
    rcases List.mem_append.mp he with he | he
    · rcases List.mem_append.mp he with he | he
      · rcases List.mem_append.mp he with he | he
        · exact htr e he
        · simp at he
      · simp at he
        subst he
        rfl
    · simp at he
      rcases he with rfl | rfl <;> rfl

/-- Witness for C8 on linux with an empty packager output. -/
theorem archive_only_when_expected_output_exists_witness :
    ((∀ q ∈ ([[("web" : String)]] : FS), ["dist"] <+: q → ["dist"] ∈ ([["web"]] : FS)) ∧
     ["web"] ∈ ([[("web" : String)]] : FS) ∧
     envNoOutput.npmInstallExit = 0 ∧ envNoOutput.npmBuildExit = 0 ∧
     envNoOutput.pyinstallerExit = 0 ∧
     ["dist"] ∈ envNoOutput.pyinstallerCreates ∧
     expectedAppPath "linux" ∉ envNoOutput.npmInstallCreates ∧
     expectedAppPath "linux" ∉ envNoOutput.npmBuildCreates ∧
     expectedAppPath "linux" ∉ envNoOutput.pyinstallerCreates) ∧
    ((build_app "linux" envNoOutput [["web"]]).exitCode = 0 ∧
     Event.logInfo "Build completed successfully!" ∈
       (build_app "linux" envNoOutput [["web"]]).trace ∧
     ∀ e ∈ (build_app "linux" envNoOutput [["web"]]).trace, isArchiveAttempt e = false) :=
  ⟨⟨by decide, by decide, by decide, by decide, by decide, by decide, by decide,
    by decide, by decide⟩,
   archive_only_when_expected_output_exists "linux" envNoOutput [["web"]]
     (by decide) (by decide) (by decide) (by decide) (by decide) (by decide)
     (by decide) (by decide) (by decide)⟩

/-- C10: on win32 the archive is created by a `make_archive` call whose root
dir is `dist/TAK Manager` and whose base dir argument is absent (`none`), so
the zip's entries are the contents of the `TAK Manager` directory with no
enclosing top-level directory — unlike the darwin archive, whose
`make_archive` call passes root dir `dist` and base dir `TAK Manager.app`,
putting the bundle itself at the top level of the zip. -/
theorem win32_archive_contents_rooted (env : Env) (fs0 : FS)
    (hw : ["web"] ∈ fs0) (hi : env.npmInstallExit = 0) (hb : env.npmBuildExit = 0)
    (hpy : env.pyinstallerExit = 0)
    (hwn : ["dist", "TAK Manager"] ∈ env.pyinstallerCreates)
    (hd : ["dist"] ∈ env.pyinstallerCreates)
    (hda : ["dist", "TAK Manager.app"] ∈ env.pyinstallerCreates) :
    Event.makeArchive "dist/TAK-Manager-Windows" "zip" "dist/TAK Manager" none ∈
      (build_app "win32" env fs0).trace ∧
    ["dist", "TAK-Manager-Windows.zip"] ∈ (build_app "win32" env fs0).fs ∧
    Event.makeArchive "dist/TAK-Manager-macOS" "zip" "dist" (some "TAK Manager.app") ∈
      (build_app "darwin" env fs0).trace := by
  have hwin :
      Event.makeArchive "dist/TAK-Manager-Windows" "zip" "dist/TAK Manager" none ∈
        (build_app "win32" env fs0).trace ∧
      ["dist", "TAK-Manager-Windows.zip"] ∈ (build_app "win32" env fs0).fs := by
    rw [build_app_eq]
    generalize hcl : clean_build (setup_logging "win32" env.logStamp fs0) = cl
    have hwC : ["web"] ∈ cl.1 := by
      rw [← hcl]
      exact mem_clean_build (mem_setup_logging_of_mem hw)
        (by decide) (by decide) (by decide) (by decide)
    generalize hbfe : build_frontend "win32" env cl.1 = bf
    have hbfo : bf.2.2 = Outcome.ok := by
      rw [← hbfe]
      exact build_frontend_ok hwC hi hb
    rw [finishFromFrontend_ok hbfo]
    rw [finishFromResources_pos hpy]
    generalize here : ensure_resources "win32" bf.1 = er
    generalize hfs4 : unionPaths er.1 env.pyinstallerCreates = fs4
    have h4m : ["dist", "TAK Manager"] ∈ fs4 := by
      rw [← hfs4]
      exact mem_unionPaths.mpr (Or.inr hwn)
    have hds := create_debug_script_not_darwin "win32" fs4 (by decide)
    have hds1 : (create_debug_script "win32" fs4).1 = fs4 := by rw [hds]
    have hds2 : (create_debug_script "win32" fs4).2.1 = [] := by rw [hds]
    rw [finishFromDebug_ok (by rw [hds])]
    rw [hds1, hds2]
    rw [archiveStage_win32_mem h4m]
    refine ⟨?_, ?_⟩
    · simp
    · exact mem_fsInsert.mpr (Or.inl rfl)
  have hdarwin :
      Event.makeArchive "dist/TAK-Manager-macOS" "zip" "dist" (some "TAK Manager.app") ∈
        (build_app "darwin" env fs0).trace := by
    rw [build_app_eq]
    generalize hcl : clean_build (setup_logging "darwin" env.logStamp fs0) = cl
    have hwC : ["web"] ∈ cl.1 := by
      rw [← hcl]
      exact mem_clean_build (mem_setup_logging_of_mem hw)
        (by decide) (by decide) (by decide) (by decide)
    generalize hbfe : build_frontend "darwin" env cl.1 = bf
    have hbfo : bf.2.2 = Outcome.ok := by
      rw [← hbfe]
      exact build_frontend_ok hwC hi hb
    rw [finishFromFrontend_ok hbfo]
    rw [finishFromResources_pos hpy]
    generalize here : ensure_resources "darwin" bf.1 = er
    generalize hfs4 : unionPaths er.1 env.pyinstallerCreates = fs4
    have h4d : ["dist"] ∈ fs4 := by
      rw [← hfs4]
      exact mem_unionPaths.mpr (Or.inr hd)
    have h4a : ["dist", "TAK Manager.app"] ∈ fs4 := by
      rw [← hfs4]
      exact mem_unionPaths.mpr (Or.inr hda)
    have hds := create_debug_script_darwin_mem h4d
    have hds1 : (create_debug_script "darwin" fs4).1 = fsInsert debugScriptPath fs4 := by
      rw [hds]
    have hds2 : (create_debug_script "darwin" fs4).2.1 =
        [Event.writeFile debugScriptPath, Event.chmod debugScriptPath 493,
         Event.logInfo "Created debug launch script"] := by
      rw [hds]
    rw [finishFromDebug_ok (by rw [hds])]
    rw [hds1, hds2]
    rw [archiveStage_darwin_mem (mem_fsInsert_of_mem h4a)]
    simp
  exact ⟨hwin.1, hwin.2, hdarwin⟩

/-- Witness for C10 on a filesystem holding only the frontend sources. -/
theorem win32_archive_contents_rooted_witness :
    (["web"] ∈ ([[("web" : String)]] : FS) ∧ envDesktopOk.npmInstallExit = 0 ∧
     envDesktopOk.npmBuildExit = 0 ∧ envDesktopOk.pyinstallerExit = 0 ∧
     ["dist", "TAK Manager"] ∈ envDesktopOk.pyinstallerCreates ∧
     ["dist"] ∈ envDesktopOk.pyinstallerCreates ∧
     ["dist", "TAK Manager.app"] ∈ envDesktopOk.pyinstallerCreates) ∧
    (Event.makeArchive "dist/TAK-Manager-Windows" "zip" "dist/TAK Manager" none ∈
       (build_app "win32" envDesktopOk [["web"]]).trace ∧
     ["dist", "TAK-Manager-Windows.zip"] ∈ (build_app "win32" envDesktopOk [["web"]]).fs ∧
     Event.makeArchive "dist/TAK-Manager-macOS" "zip" "dist" (some "TAK Manager.app") ∈
       (build_app "darwin" envDesktopOk [["web"]]).trace) :=
  ⟨⟨by decide, by decide, by decide, by decide, by decide, by decide, by decide⟩,
   win32_archive_contents_rooted envDesktopOk [["web"]]
     (by decide) (by decide) (by decide) (by decide) (by decide) (by decide) (by decide)⟩

example : (clean_build [["build"], ["dist"], ["web"]]).1 = [["web"]] := by decide

example :
    (build_app "linux"
      { npmInstallExit := 0, npmBuildExit := 0, pyinstallerExit := 0, tarExit := 0,
        npmInstallCreates := [], npmBuildCreates := [],
        pyinstallerCreates := [["dist"], ["dist", "tak-manager"]], logStamp := "t" }
      [["web"]]).exitCode = 0 := by decide

example :
    Event.spawn tarCmd ∈
    (build_app "linux"
      { npmInstallExit := 0, npmBuildExit := 0, pyinstallerExit := 0, tarExit := 0,
        npmInstallCreates := [], npmBuildCreates := [],
        pyinstallerCreates := [["dist"], ["dist", "tak-manager"]], logStamp := "t" }
      [["web"]]).trace := by decide

end TakBuild
